import Mathlib

/-!
Shallow embedding of the real-time WebSocket fan-out layer of the Varta-Ai
server (`src/server/routes.ts`, the `wss.on('connection')` handler and the
module-level `clients` map).

Modelling choices, each tied to a construct of the source:

* A live transport connection is an opaque handle; we use `Nat`.
* `clients : Map<WebSocket, {userId, channels: Set<number>}>` becomes an
  insertion-ordered association list `Registry := List (Nat × ClientInfo)`;
  `Map.set` replaces the first matching key in place (keeping its position,
  as JS `Map.set` does) or appends, `Map.get` finds the first match,
  `Map.forEach` iterates in list order.
* JS field accesses on the parsed JSON (`message.userId`, `message.channelId`,
  `message.recipientId`, `message.data`, `message.isTyping`) may yield
  `undefined`; each is an `Option`.  JS strict equality `===` between two
  such values (number-or-undefined) is `Option` equality: `undefined ===
  undefined` is true, `undefined === n` is false.  JS truthiness of a
  number-or-undefined value (`if (message.channelId)`) is `truthy`:
  false exactly on `undefined` and `0`.
* `Set<number>` of joined channels becomes `Finset (Option Int)`
  (`add` inserts, `delete` erases, `has` is membership); the element type is
  `Option Int` because `clientData.channels.add(message.channelId)` adds
  whatever `message.channelId` is, `undefined` included.
* `clientWs.readyState === WebSocket.OPEN` and "`clientWs.send` (including
  `JSON.stringify`) throws" are environment facts per connection handle:
  `Env.isOpen` and `Env.sendFails`.
* The single `try { JSON.parse(...); switch ... } catch` around the whole
  message handler means: a throw anywhere (parse failure, a property access
  on `undefined`, a failing `send`) ends processing of that inbound frame,
  keeping all state mutations and sends made before the throw, and the
  connection stays open.  `fanout` therefore returns the list of sends made
  before the first throw, and a thrown test or send truncates it.
* In the DM branch the source evaluates
  `clientInfo.userId === message.recipientId || clientInfo.userId === message.data.authorId`
  with JS short-circuiting: `message.data.authorId` is only read when the
  first disjunct is false, and reading it throws when `message.data` is
  `undefined`.  `dmTest` reproduces this exactly.
-/

namespace Varta

/-- Per-connection metadata stored in the `clients` map:
`{ userId: number; channels: Set<number> }` (with JS `undefined` admitted
for `userId`, since `message.userId` may be absent in the `auth` event). -/
structure ClientInfo where
  userId : Option Int
  channels : Finset (Option Int)
deriving DecidableEq

/-- The `clients` map: insertion-ordered association list keyed by the
connection handle. -/
abbrev Registry := List (Nat × ClientInfo)

/-- The `message.data` payload object of a `new_message` event; the only
field the router reads is `authorId` (possibly absent). -/
structure Payload where
  authorId : Option Int
  content : Option String
deriving DecidableEq

/-- A parsed inbound event (the result of `JSON.parse` on a frame), with all
fields the switch reads; absent fields are `none`. -/
structure InMsg where
  type : String
  userId : Option Int
  channelId : Option Int
  recipientId : Option Int
  data : Option Payload
  isTyping : Option Bool
deriving DecidableEq

/-- An outbound payload written to a target connection: either
`{type:'new_message', message: data}` or
`{type:'typing', userId, channelId, isTyping}`. -/
inductive OutMsg where
  | newMessage (data : Option Payload)
  | typing (userId : Option Int) (channelId : Option Int) (isTyping : Option Bool)
deriving DecidableEq

/-- Transport-level facts about each connection handle: whether its
`readyState` is `WebSocket.OPEN`, and whether `clientWs.send`
(serialization included) throws for it. -/
structure Env where
  isOpen : Nat → Bool
  sendFails : Nat → Bool

/-- JS truthiness of a number-or-undefined value: `undefined` and `0` are
falsy, every other number is truthy. -/
def truthy : Option Int → Bool
  | some n => n != 0
  | none => false

/-- `clients.get(ws)`: first entry with the given key. -/
def lookup : Registry → Nat → Option ClientInfo
  | [], _ => none
  | (k, v) :: rest, c => if k = c then some v else lookup rest c

/-- `clients.set(ws, v)`: replace the first entry with the given key in
place (JS `Map.set` keeps the original position), or append a new entry. -/
def setEntry : Registry → Nat → ClientInfo → Registry
  | [], c, v => [(c, v)]
  | (k, w) :: rest, c, v =>
      if k = c then (c, v) :: rest else (k, w) :: setEntry rest c v

/-- `clients.delete(ws)` (the `ws.on('close')` handler). -/
def removeConn (reg : Registry) (c : Nat) : Registry :=
  reg.filter (fun p => p.1 ≠ c)

/-- The `join_channel` case: `clients.get(ws)` and, if an entry exists,
`clientData.channels.add(message.channelId)`; silently a no-op when the
connection has no entry. -/
def joinChannel (reg : Registry) (c : Nat) (ch : Option Int) : Registry :=
  match lookup reg c with
  | none => reg
  | some info => setEntry reg c { info with channels := insert ch info.channels }

/-- The `leave_channel` case: `client.channels.delete(message.channelId)`
on the existing entry, a no-op when absent. -/
def leaveChannel (reg : Registry) (c : Nat) (ch : Option Int) : Registry :=
  match lookup reg c with
  | none => reg
  | some info => setEntry reg c { info with channels := info.channels.erase ch }

/-- Whether connection `c` currently has `ch` in its joined-channel set. -/
def memberOf (reg : Registry) (c : Nat) (ch : Option Int) : Bool :=
  match lookup reg c with
  | none => false
  | some info => decide (ch ∈ info.channels)

/-- Per-target condition of the channel broadcast (`new_message` with a
truthy `channelId`) and of the `typing` broadcast:
`clientWs !== ws && clientInfo.channels.has(message.channelId) && clientWs.readyState === OPEN`.
It never throws. -/
def channelTest (env : Env) (sender : Nat) (chId : Option Int)
    (c : Nat) (info : ClientInfo) : Except Unit Bool :=
  .ok (decide (c ≠ sender) && decide (chId ∈ info.channels) && env.isOpen c)

/-- Per-target condition of the DM branch, with the source's short-circuit:
`clientInfo.userId === message.recipientId` first; only when that is false
is `message.data.authorId` read, which throws when `message.data` is
`undefined`. -/
def dmTest (env : Env) (sender : Nat) (rId : Option Int) (data : Option Payload)
    (c : Nat) (info : ClientInfo) : Except Unit Bool :=
  if info.userId == rId then
    .ok (env.isOpen c && decide (c ≠ sender))
  else
    match data with
    | none => .error ()
    | some d => .ok ((info.userId == d.authorId) && env.isOpen c && decide (c ≠ sender))

/-- `clients.forEach` with a per-target condition and a send: entries are
visited in list order; a throw in the condition or in `send` propagates out
of `forEach` (to the handler-level `catch`), abandoning all remaining
targets.  Returns the (connection, payload) sends actually made. -/
def fanout (env : Env) (out : OutMsg)
    (test : Nat → ClientInfo → Except Unit Bool) : Registry → List (Nat × OutMsg)
  | [] => []
  | (c, info) :: rest =>
    match test c info with
    | .error _ => []
    | .ok false => fanout env out test rest
    | .ok true =>
        if env.sendFails c then [] else (c, out) :: fanout env out test rest

/-- The `switch (message.type)` of the `ws.on('message')` handler, for one
parsed event from connection `c`: returns the registry after the event and
the list of sends made.  The branch order and conditions mirror the source:
`auth` overwrites the entry with a fresh empty channel set; `join_channel` /
`leave_channel` mutate an existing entry only; `new_message` broadcasts to
the channel when `message.channelId` is truthy, else to the DM recipients
when `message.recipientId` is truthy, else does nothing; `typing` always
broadcasts on `message.channelId`; unknown types fall through. -/
def handleEvent (env : Env) (reg : Registry) (c : Nat) (m : InMsg) :
    Registry × List (Nat × OutMsg) :=
  if m.type = "auth" then
    (setEntry reg c ⟨m.userId, ∅⟩, [])
  else if m.type = "join_channel" then
    (joinChannel reg c m.channelId, [])
  else if m.type = "leave_channel" then
    (leaveChannel reg c m.channelId, [])
  else if m.type = "new_message" then
    if truthy m.channelId then
      (reg, fanout env (OutMsg.newMessage m.data) (channelTest env c m.channelId) reg)
    else if truthy m.recipientId then
      (reg, fanout env (OutMsg.newMessage m.data) (dmTest env c m.recipientId m.data) reg)
    else
      (reg, [])
  else if m.type = "typing" then
    (reg, fanout env (OutMsg.typing m.userId m.channelId m.isTyping)
      (channelTest env c m.channelId) reg)
  else
    (reg, [])

/-- One inbound transport frame: either its body fails `JSON.parse` (or is
otherwise not the expected structure), or it parses to an event. -/
inductive Frame where
  | malformed
  | event (m : InMsg)

/-- The whole `ws.on('message')` callback for one frame: `JSON.parse`
inside the `try` means a malformed frame is caught, logged and dropped with
no state change, no sends, and no close (the source never closes a
connection from this handler). -/
def handleFrame (env : Env) (reg : Registry) (c : Nat) : Frame → Registry × List (Nat × OutMsg)
  | .malformed => (reg, [])
  | .event m => handleEvent env reg c m

/-- Sequential processing of several frames from the same connection
(FIFO per connection, per the event-loop model), accumulating sends. -/
def processFrames (env : Env) (c : Nat) (reg : Registry) :
    List Frame → Registry × List (Nat × OutMsg)
  | [] => (reg, [])
  | f :: fs =>
      let r1 := handleFrame env reg c f
      let r2 := processFrames env c r1.1 fs
      (r2.1, r1.2 ++ r2.2)

/-! Basic lemmas about the registry operations and the fan-out loop. -/

theorem lookup_setEntry_self (reg : Registry) (c : Nat) (v : ClientInfo) :
    lookup (setEntry reg c v) c = some v := by
  induction reg with
  | nil => simp [setEntry, lookup]
  | cons p rest ih =>
      obtain ⟨k, w⟩ := p
      by_cases hk : k = c
      · simp [setEntry, hk, lookup]
      · simp [setEntry, hk, lookup, ih]

theorem lookup_setEntry_ne (reg : Registry) (c d : Nat) (v : ClientInfo) (hd : d ≠ c) :
    lookup (setEntry reg c v) d = lookup reg d := by
  induction reg with
  | nil => simp [setEntry, lookup, Ne.symm hd]
  | cons p rest ih =>
      obtain ⟨k, w⟩ := p
      by_cases hk : k = c
      · subst hk
        simp [setEntry, lookup, Ne.symm hd]
      · simp [setEntry, hk, lookup, ih]

theorem setEntry_of_lookup (reg : Registry) (c : Nat) (v : ClientInfo)
    (h : lookup reg c = some v) : setEntry reg c v = reg := by
  induction reg with
  | nil => simp [lookup] at h
  | cons p rest ih =>
      obtain ⟨k, w⟩ := p
      by_cases hk : k = c
      · subst hk
        simp [lookup] at h
        simp [setEntry, h]
      · simp [lookup, hk] at h
        simp [setEntry, hk, ih h]

theorem fanout_pure (env : Env) (out : OutMsg)
    (test : Nat → ClientInfo → Except Unit Bool) (t : Nat → ClientInfo → Bool)
    (reg : Registry) (h : ∀ c info, test c info = .ok (t c info)) :
    fanout env out test reg =
      ((reg.filter (fun p => t p.1 p.2)).takeWhile
        (fun p => !env.sendFails p.1)).map (fun p => (p.1, out)) := by
  induction reg with
  | nil => simp [fanout]
  | cons p rest ih =>
      obtain ⟨c, info⟩ := p
      by_cases ht : t c info
      · by_cases hf : env.sendFails c
        · simp [fanout, h c info, ht, hf, List.filter, List.takeWhile]
        · simp [fanout, h c info, ht, hf, List.filter, List.takeWhile, ih]
      · simp [fanout, h c info, ht, List.filter, ih]

theorem fanout_all_sent (env : Env) (out : OutMsg)
    (test : Nat → ClientInfo → Except Unit Bool) (t : Nat → ClientInfo → Bool)
    (reg : Registry) (h : ∀ c info, test c info = .ok (t c info))
    (hok : ∀ c, env.sendFails c = false) :
    fanout env out test reg =
      (reg.filter (fun p => t p.1 p.2)).map (fun p => (p.1, out)) := by
  rw [fanout_pure env out test t reg h]
  congr 1
  apply List.takeWhile_eq_self_iff.mpr
  intro p _
  simp [hok]

theorem fanout_mem_ne (env : Env) (out : OutMsg)
    (test : Nat → ClientInfo → Except Unit Bool) (reg : Registry) (s : Nat)
    (h : ∀ c info, test c info = .ok true → c ≠ s) :
    ∀ p ∈ fanout env out test reg, p.1 ≠ s := by
  induction reg with
  | nil => simp [fanout]
  | cons q rest ih =>
      obtain ⟨c, info⟩ := q
      intro p hp
      match htest : test c info with
      | .error e => simp [fanout, htest] at hp
      | .ok false =>
          simp only [fanout, htest] at hp
          exact ih p hp
      | .ok true =>
          simp only [fanout, htest] at hp
          by_cases hf : env.sendFails c
          · simp [hf] at hp
          · simp [hf] at hp
            rcases hp with hp | hp
            · subst hp; exact h c info htest
            · exact ih p hp

theorem fanout_skip_sender (env : Env) (out : OutMsg)
    (test : Nat → ClientInfo → Except Unit Bool) (reg : Registry) (s : Nat)
    (h : ∀ info, test s info = .ok false) :
    fanout env out test reg = fanout env out test (reg.filter (fun p => p.1 ≠ s)) := by
  induction reg with
  | nil => simp
  | cons q rest ih =>
      obtain ⟨c, info⟩ := q
      by_cases hc : c = s
      · subst hc
        simp [fanout, h info, List.filter, ih]
      · match htest : test c info with
        | .error e => simp [fanout, htest, List.filter, hc]
        | .ok false => simp [fanout, htest, List.filter, hc, ih]
        | .ok true => simp [fanout, htest, List.filter, hc, ih]

theorem handleEvent_auth (env : Env) (reg : Registry) (c : Nat) (m : InMsg)
    (h : m.type = "auth") :
    handleEvent env reg c m = (setEntry reg c ⟨m.userId, ∅⟩, []) := by
  unfold handleEvent
  rw [if_pos h]

theorem handleEvent_join (env : Env) (reg : Registry) (c : Nat) (m : InMsg)
    (h : m.type = "join_channel") :
    handleEvent env reg c m = (joinChannel reg c m.channelId, []) := by
  unfold handleEvent
  rw [if_neg (by rw [h]; decide), if_pos h]

theorem handleEvent_leave (env : Env) (reg : Registry) (c : Nat) (m : InMsg)
    (h : m.type = "leave_channel") :
    handleEvent env reg c m = (leaveChannel reg c m.channelId, []) := by
  unfold handleEvent
  rw [if_neg (by rw [h]; decide), if_neg (by rw [h]; decide), if_pos h]

theorem handleEvent_channel (env : Env) (reg : Registry) (c : Nat) (m : InMsg)
    (hty : m.type = "new_message") (hch : truthy m.channelId = true) :
    handleEvent env reg c m =
      (reg, fanout env (OutMsg.newMessage m.data) (channelTest env c m.channelId) reg) := by
  unfold handleEvent
  rw [if_neg (by rw [hty]; decide), if_neg (by rw [hty]; decide),
    if_neg (by rw [hty]; decide), if_pos hty, if_pos hch]

theorem handleEvent_dm (env : Env) (reg : Registry) (c : Nat) (m : InMsg)
    (hty : m.type = "new_message") (hch : truthy m.channelId = false)
    (hr : truthy m.recipientId = true) :
    handleEvent env reg c m =
      (reg, fanout env (OutMsg.newMessage m.data) (dmTest env c m.recipientId m.data) reg) := by
  unfold handleEvent
  rw [if_neg (by rw [hty]; decide), if_neg (by rw [hty]; decide),
    if_neg (by rw [hty]; decide), if_pos hty,
    if_neg (by rw [hch]; decide), if_pos hr]

theorem handleEvent_msg_drop (env : Env) (reg : Registry) (c : Nat) (m : InMsg)
    (hty : m.type = "new_message") (hch : truthy m.channelId = false)
    (hr : truthy m.recipientId = false) :
    handleEvent env reg c m = (reg, []) := by
  unfold handleEvent
  rw [if_neg (by rw [hty]; decide), if_neg (by rw [hty]; decide),
    if_neg (by rw [hty]; decide), if_pos hty,
    if_neg (by rw [hch]; decide), if_neg (by rw [hr]; decide)]

theorem handleEvent_typing (env : Env) (reg : Registry) (c : Nat) (m : InMsg)
    (hty : m.type = "typing") :
    handleEvent env reg c m =
      (reg, fanout env (OutMsg.typing m.userId m.channelId m.isTyping)
        (channelTest env c m.channelId) reg) := by
  unfold handleEvent
  rw [if_neg (by rw [hty]; decide), if_neg (by rw [hty]; decide),
    if_neg (by rw [hty]; decide), if_neg (by rw [hty]; decide), if_pos hty]

theorem dmTest_ok (env : Env) (sender : Nat) (rId : Option Int) (d : Payload)
    (c : Nat) (info : ClientInfo) :
    dmTest env sender rId (some d) c info =
      .ok (((info.userId == rId) || (info.userId == d.authorId)) &&
        env.isOpen c && decide (c ≠ sender)) := by
  by_cases h : info.userId == rId
  · simp [dmTest, h, Bool.and_assoc]
  · simp [dmTest, h]

theorem channelTest_ok_true {env : Env} {s : Nat} {chId : Option Int} {x : Nat}
    {info : ClientInfo} (h : channelTest env s chId x info = .ok true) : x ≠ s := by
  simp [channelTest] at h
  exact h.1.1

theorem dmTest_ok_true {env : Env} {s : Nat} {rId : Option Int} {data : Option Payload}
    {x : Nat} {info : ClientInfo} (h : dmTest env s rId data x info = .ok true) : x ≠ s := by
  unfold dmTest at h
  split at h
  · simp at h
    exact h.2
  · cases data with
    | none => simp at h
    | some d =>
        simp at h
        exact h.2

/-! Concrete fixtures used by witnesses and counterexamples: an environment
where every connection is open and no send fails, one where the send to
connection `2` throws, and small registries and events matching the
scenarios of the specification. -/

def envAll : Env := ⟨fun _ => true, fun _ => false⟩

def envFail2 : Env := ⟨fun _ => true, fun c => c == 2⟩

def msgCh5 : InMsg := ⟨"new_message", none, some 5, none, some ⟨some 1, some "hi"⟩, none⟩

def msgDm2 : InMsg := ⟨"new_message", none, none, some 2, some ⟨some 1, some "dm"⟩, none⟩

def msgTyping5 : InMsg := ⟨"typing", some 1, some 5, none, none, some true⟩

def msgJoin5 : InMsg := ⟨"join_channel", none, some 5, none, none, none⟩

def msgLeave5 : InMsg := ⟨"leave_channel", none, some 5, none, none, none⟩

def msgAuth (u : Int) : InMsg := ⟨"auth", some u, none, none, none, none⟩

def regChan : Registry := [(1, ⟨some 1, {some 5}⟩), (2, ⟨some 2, {some 5}⟩), (3, ⟨some 3, ∅⟩)]

def regChan3 : Registry :=
  [(1, ⟨some 1, {some 5}⟩), (2, ⟨some 2, {some 5}⟩), (3, ⟨some 3, {some 5}⟩)]

def regDm : Registry :=
  [(0, ⟨some 1, ∅⟩), (1, ⟨some 1, ∅⟩), (2, ⟨some 2, ∅⟩), (3, ⟨some 3, ∅⟩)]

/-! Claim theorems. -/

/-- C1: for an inbound `new_message` carrying a truthy `channelId`, when no
send throws, the connections that receive the forwarded
`{type:'new_message', message: data}` payload are exactly the registered
connections other than the sender whose joined-channel set contains that
`channelId` and whose transport `readyState` is open — stated as equality
with the filtered registry, so: no more, no fewer, in registry order. -/
theorem channel_broadcast_recipients_exact (env : Env) (reg : Registry) (c : Nat)
    (m : InMsg) (hty : m.type = "new_message") (hch : truthy m.channelId = true)
    (hok : ∀ d, env.sendFails d = false) :
    (handleEvent env reg c m).2 =
      (reg.filter (fun p =>
        decide (p.1 ≠ c) && decide (m.channelId ∈ p.2.channels) && env.isOpen p.1)).map
        (fun p => (p.1, OutMsg.newMessage m.data)) := by
  rw [handleEvent_channel env reg c m hty hch]
  exact fanout_all_sent env (OutMsg.newMessage m.data) (channelTest env c m.channelId)
    (fun x info => decide (x ≠ c) && decide (m.channelId ∈ info.channels) && env.isOpen x)
    reg (fun x info => rfl) hok

theorem channel_broadcast_recipients_exact_witness :
    (handleEvent envAll regChan 1 msgCh5).2 =
      (regChan.filter (fun p =>
        decide (p.1 ≠ 1) && decide (msgCh5.channelId ∈ p.2.channels) && envAll.isOpen p.1)).map
        (fun p => (p.1, OutMsg.newMessage msgCh5.data)) :=
  channel_broadcast_recipients_exact envAll regChan 1 msgCh5 rfl (by decide) (fun _ => rfl)

/-- C2: for an inbound `new_message` with a truthy `recipientId` and a falsy
`channelId`, whose payload is present, when no send throws, the recipients
are exactly the registered open connections whose `userId` strictly equals
`recipientId` or strictly equals the payload's `authorId`, minus the sending
connection itself — channel membership plays no role, so the sender's other
open sessions receive the echo while the originating connection does not. -/
theorem dm_recipients_exact (env : Env) (reg : Registry) (c : Nat) (m : InMsg)
    (d : Payload) (hty : m.type = "new_message") (hch : truthy m.channelId = false)
    (hr : truthy m.recipientId = true) (hd : m.data = some d)
    (hok : ∀ x, env.sendFails x = false) :
    (handleEvent env reg c m).2 =
      (reg.filter (fun p =>
        ((p.2.userId == m.recipientId) || (p.2.userId == d.authorId)) &&
          env.isOpen p.1 && decide (p.1 ≠ c))).map
        (fun p => (p.1, OutMsg.newMessage (some d))) := by
  rw [handleEvent_dm env reg c m hty hch hr, hd]
  exact fanout_all_sent env (OutMsg.newMessage (some d))
    (dmTest env c m.recipientId (some d))
    (fun x info => ((info.userId == m.recipientId) || (info.userId == d.authorId)) &&
      env.isOpen x && decide (x ≠ c))
    reg (fun x info => dmTest_ok env c m.recipientId d x info) hok

theorem dm_recipients_exact_witness :
    (handleEvent envAll regDm 0 msgDm2).2 =
      (regDm.filter (fun p =>
        ((p.2.userId == msgDm2.recipientId) || (p.2.userId == (Payload.mk (some 1) (some "dm")).authorId)) &&
          envAll.isOpen p.1 && decide (p.1 ≠ 0))).map
        (fun p => (p.1, OutMsg.newMessage (some ⟨some 1, some "dm"⟩))) :=
  dm_recipients_exact envAll regDm 0 msgDm2 ⟨some 1, some "dm"⟩ rfl (by decide) (by decide)
    rfl (fun _ => rfl)

/-- C3 counterexample: in the source the single `try/catch` wraps the whole
`clients.forEach` fan-out, so one throwing `send` aborts the remaining
targets.  Concretely: connections 1, 2, 3 are all registered, open and
joined to channel 5, connection 0 sends a channel-5 `new_message`, and the
send to connection 2 throws.  Connection 3 is an eligible remaining target
whose own send would succeed (`sendFails 3 = false`), yet it receives
nothing: delivery was not even attempted, refuting the claim that remaining
targets of the same fan-out are still attempted. -/
theorem send_failure_aborts_fanout_cex :
    (handleEvent envFail2 regChan3 0 msgCh5).2 = [(1, OutMsg.newMessage msgCh5.data)] ∧
    lookup regChan3 3 = some ⟨some 3, {some 5}⟩ ∧
    envFail2.isOpen 3 = true ∧
    envFail2.sendFails 3 = false ∧
    msgCh5.channelId = some 5 ∧
    (3, OutMsg.newMessage msgCh5.data) ∉ (handleEvent envFail2 regChan3 0 msgCh5).2 := by
  decide

/-- C3 amended: if the serialization or transport write for one target
connection throws during a fan-out, that send and ALL remaining targets of
the same fan-out are abandoned (the exception propagates out of `forEach`
into the handler-level `catch`).  Stated for each fan-out the source has —
channel broadcast, direct message with its payload present, and typing —
the deliveries are exactly the eligible targets that precede, in registry
order, the first eligible target whose send throws. -/
theorem send_failure_truncates_fanout (env : Env) (reg : Registry) (c : Nat)
    (m : InMsg) :
    (m.type = "new_message" → truthy m.channelId = true →
      (handleEvent env reg c m).2 =
        ((reg.filter (fun p =>
          decide (p.1 ≠ c) && decide (m.channelId ∈ p.2.channels) && env.isOpen p.1)).takeWhile
            (fun p => !env.sendFails p.1)).map (fun p => (p.1, OutMsg.newMessage m.data))) ∧
    (∀ d : Payload, m.type = "new_message" → truthy m.channelId = false →
      truthy m.recipientId = true → m.data = some d →
      (handleEvent env reg c m).2 =
        ((reg.filter (fun p =>
          ((p.2.userId == m.recipientId) || (p.2.userId == d.authorId)) &&
            env.isOpen p.1 && decide (p.1 ≠ c))).takeWhile
            (fun p => !env.sendFails p.1)).map (fun p => (p.1, OutMsg.newMessage (some d)))) ∧
    (m.type = "typing" →
      (handleEvent env reg c m).2 =
        ((reg.filter (fun p =>
          decide (p.1 ≠ c) && decide (m.channelId ∈ p.2.channels) && env.isOpen p.1)).takeWhile
            (fun p => !env.sendFails p.1)).map
          (fun p => (p.1, OutMsg.typing m.userId m.channelId m.isTyping))) := by
  refine ⟨fun hty hch => ?_, fun d hty hch hr hd => ?_, fun hty => ?_⟩
  · rw [handleEvent_channel env reg c m hty hch]
    exact fanout_pure env (OutMsg.newMessage m.data) (channelTest env c m.channelId)
      (fun x info => decide (x ≠ c) && decide (m.channelId ∈ info.channels) && env.isOpen x)
      reg (fun x info => rfl)
  · rw [handleEvent_dm env reg c m hty hch hr, hd]
    exact fanout_pure env (OutMsg.newMessage (some d)) (dmTest env c m.recipientId (some d))
      (fun x info => ((info.userId == m.recipientId) || (info.userId == d.authorId)) &&
        env.isOpen x && decide (x ≠ c))
      reg (fun x info => dmTest_ok env c m.recipientId d x info)
  · rw [handleEvent_typing env reg c m hty]
    exact fanout_pure env (OutMsg.typing m.userId m.channelId m.isTyping)
      (channelTest env c m.channelId)
      (fun x info => decide (x ≠ c) && decide (m.channelId ∈ info.channels) && env.isOpen x)
      reg (fun x info => rfl)

theorem send_failure_truncates_fanout_witness :
    (handleEvent envFail2 regChan3 0 msgTyping5).2 =
      ((regChan3.filter (fun p =>
        decide (p.1 ≠ 0) && decide (msgTyping5.channelId ∈ p.2.channels) && envFail2.isOpen p.1)).takeWhile
          (fun p => !envFail2.sendFails p.1)).map
        (fun p => (p.1, OutMsg.typing msgTyping5.userId msgTyping5.channelId msgTyping5.isTyping)) :=
  (send_failure_truncates_fanout envFail2 regChan3 0 msgTyping5).2.2 rfl

/-- C4: for every inbound frame — malformed or any event type, channel
broadcast, direct message or typing — the originating connection is never a
member of its own event's recipient set: every `(connection, payload)` pair
actually sent targets a connection different from the sender. -/
theorem no_self_echo (env : Env) (reg : Registry) (c : Nat) (f : Frame) :
    ∀ p ∈ (handleFrame env reg c f).2, p.1 ≠ c := by
  intro p hp
  cases f with
  | malformed => simp [handleFrame] at hp
  | event m =>
      simp only [handleFrame] at hp
      by_cases hA : m.type = "auth"
      · rw [handleEvent_auth env reg c m hA] at hp
        simp at hp
      · by_cases hJ : m.type = "join_channel"
        · rw [handleEvent_join env reg c m hJ] at hp
          simp at hp
        · by_cases hL : m.type = "leave_channel"
          · rw [handleEvent_leave env reg c m hL] at hp
            simp at hp
          · by_cases hN : m.type = "new_message"
            · by_cases hch : truthy m.channelId = true
              · rw [handleEvent_channel env reg c m hN hch] at hp
                exact fanout_mem_ne env (OutMsg.newMessage m.data)
                  (channelTest env c m.channelId) reg c
                  (fun x info hx => channelTest_ok_true hx) p hp
              · by_cases hr : truthy m.recipientId = true
                · rw [handleEvent_dm env reg c m hN (by simpa using hch) hr] at hp
                  exact fanout_mem_ne env (OutMsg.newMessage m.data)
                    (dmTest env c m.recipientId m.data) reg c
                    (fun x info hx => dmTest_ok_true hx) p hp
                · rw [handleEvent_msg_drop env reg c m hN (by simpa using hch)
                    (by simpa using hr)] at hp
                  simp at hp
            · by_cases hT : m.type = "typing"
              · rw [handleEvent_typing env reg c m hT] at hp
                exact fanout_mem_ne env (OutMsg.typing m.userId m.channelId m.isTyping)
                  (channelTest env c m.channelId) reg c
                  (fun x info hx => channelTest_ok_true hx) p hp
              · have : handleEvent env reg c m = (reg, []) := by
                  unfold handleEvent
                  rw [if_neg hA, if_neg hJ, if_neg hL, if_neg hN, if_neg hT]
                rw [this] at hp
                simp at hp

theorem no_self_echo_witness : ((2, OutMsg.newMessage msgCh5.data) : Nat × OutMsg).1 ≠ 1 :=
  no_self_echo envAll regChan 1 (Frame.event msgCh5) (2, OutMsg.newMessage msgCh5.data)
    (by decide)

/-- C5 counterexample: the source's `wss.on('connection')` handler never
touches the `clients` map on transport open — an entry is created only by
the `auth` case — so an open, never-authenticated connection has no
registry entry (`lookup = none`), and a `join_channel` from it hits the
`if (clientData)` guard and is silently dropped: afterwards the registry is
still empty and membership of channel 5 is false, refuting both the
entry-on-open part and the join-before-auth part of the claim. -/
theorem join_before_auth_dropped_cex :
    lookup ([] : Registry) 0 = none ∧
    handleEvent envAll [] 0 msgJoin5 = ([], []) ∧
    memberOf (handleEvent envAll [] 0 msgJoin5).1 0 (some 5) = false := by
  decide

/-- C5 amended: a connection gets a registry entry only when its first
`auth` event is processed, not on transport open; a `join_channel` from a
connection with no registry entry (in particular one that has not yet
authenticated) is silently ignored — no entry is created, no membership
changes, nothing is sent, and no error is raised (the handler is total). -/
theorem join_unregistered_noop (env : Env) (reg : Registry) (c : Nat) (m : InMsg)
    (h : m.type = "join_channel") (hlook : lookup reg c = none) :
    handleEvent env reg c m = (reg, []) := by
  rw [handleEvent_join env reg c m h]
  simp [joinChannel, hlook]

theorem join_unregistered_noop_witness :
    handleEvent envAll [] 3 msgJoin5 = ([], []) :=
  join_unregistered_noop envAll [] 3 msgJoin5 rfl rfl

/-- C6 counterexample: the `auth` case executes
`clients.set(ws, { userId: message.userId, channels: new Set() })`, which
replaces the whole entry rather than updating `userId` on the existing one.
Concretely: connection 0 authenticates as user 1 and joins channel 5
(membership true); a second identical `auth` event then leaves the entry
with an empty channel set (membership false), refuting the claim that a
subsequent auth leaves `joinedChannels` unchanged. -/
theorem reauth_resets_channels_cex :
    memberOf (processFrames envAll 0 []
      [Frame.event (msgAuth 1), Frame.event msgJoin5]).1 0 (some 5) = true ∧
    lookup (processFrames envAll 0 []
      [Frame.event (msgAuth 1), Frame.event msgJoin5, Frame.event (msgAuth 1)]).1 0 =
      some ⟨some 1, ∅⟩ ∧
    memberOf (processFrames envAll 0 []
      [Frame.event (msgAuth 1), Frame.event msgJoin5, Frame.event (msgAuth 1)]).1 0
      (some 5) = false := by
  decide

/-- C6 amended: every `auth` event overwrites the connection's registry
entry (creating it if absent) with the event's `userId` and an EMPTY
joined-channel set, sends nothing, and leaves every other connection's
entry unchanged; consequently a subsequent auth resets the connection's
`joinedChannels` to empty rather than preserving it. -/
theorem auth_overwrites_entry (env : Env) (reg : Registry) (c : Nat) (m : InMsg)
    (h : m.type = "auth") :
    lookup (handleEvent env reg c m).1 c = some ⟨m.userId, ∅⟩ ∧
    (∀ d, d ≠ c → lookup (handleEvent env reg c m).1 d = lookup reg d) ∧
    (handleEvent env reg c m).2 = [] := by
  rw [handleEvent_auth env reg c m h]
  exact ⟨lookup_setEntry_self reg c _, fun d hd => lookup_setEntry_ne reg c d _ hd, rfl⟩

theorem auth_overwrites_entry_witness :
    lookup (handleEvent envAll regChan 1 (msgAuth 7)).1 1 = some ⟨some 7, ∅⟩ :=
  (auth_overwrites_entry envAll regChan 1 (msgAuth 7) rfl).1

/-- C7: from any registry, a `join_channel(c, ch)` immediately followed by
a `leave_channel(c, ch)` leaves `c` not a member of `ch`; and a
`leave_channel` for a channel the connection is not a member of — in
particular one arriving before any join, or from an unregistered
connection — changes nothing and sends nothing (the handler is total, so no
exception is possible). -/
theorem join_then_leave_not_member (env env' : Env) (reg : Registry) (c : Nat)
    (m1 m2 : InMsg) (h1 : m1.type = "join_channel") (h2 : m2.type = "leave_channel")
    (hch : m2.channelId = m1.channelId) :
    memberOf (handleEvent env' (handleEvent env reg c m1).1 c m2).1 c m1.channelId = false ∧
    (∀ reg' : Registry, memberOf reg' c m2.channelId = false →
      handleEvent env' reg' c m2 = (reg', [])) := by
  constructor
  · rw [handleEvent_join env reg c m1 h1]
    rw [handleEvent_leave env' _ c m2 h2, hch]
    cases hlook : lookup reg c with
    | none => simp [joinChannel, leaveChannel, memberOf, hlook]
    | some info =>
        simp [joinChannel, hlook, leaveChannel, lookup_setEntry_self, memberOf,
          Finset.not_mem_erase]
  · intro reg' hmem
    rw [handleEvent_leave env' reg' c m2 h2]
    cases hlook : lookup reg' c with
    | none => simp [leaveChannel, hlook]
    | some info =>
        have hnot : m2.channelId ∉ info.channels := by
          simpa [memberOf, hlook] using hmem
        simp [leaveChannel, hlook, Finset.erase_eq_of_not_mem hnot,
          setEntry_of_lookup reg' c info hlook]

theorem join_then_leave_not_member_witness :
    memberOf (handleEvent envAll
      (handleEvent envAll regChan 1 msgJoin5).1 1 msgLeave5).1 1 msgJoin5.channelId = false :=
  (join_then_leave_not_member envAll envAll regChan 1 msgJoin5 msgLeave5 rfl rfl rfl).1

/-- C8: a frame that cannot be parsed as the expected event structure is
dropped inside the handler-level `catch` with no registry mutation, no
membership change and nothing sent, and the connection is not closed (the
message handler contains no close action at all — the only
`clients.delete` is in the separate `ws.on('close')` handler); processing
of any subsequent frames from the same connection is exactly as if the
malformed frame had never arrived. -/
theorem malformed_frame_skipped (env : Env) (c : Nat) (reg : Registry) (fs : List Frame) :
    handleFrame env reg c Frame.malformed = (reg, []) ∧
    processFrames env c reg (Frame.malformed :: fs) = processFrames env c reg fs := by
  refine ⟨rfl, ?_⟩
  simp [processFrames, handleFrame]

/-- C9: routing of `new_message` is decided by JS truthiness. When
`channelId` is truthy the channel-broadcast rule applies and the result
does not depend on `recipientId` at all (replacing it with any value gives
the same outcome); otherwise — `channelId` absent or falsy — the
direct-message rule applies exactly when `recipientId` is truthy; in
particular when `channelId` is `0` (falsy) the channel rule never applies;
and when both ids are falsy or absent the event is silently dropped with no
fan-out and no state change. -/
theorem new_message_routing_truthiness (env : Env) (reg : Registry) (c : Nat)
    (m : InMsg) (hty : m.type = "new_message") :
    (truthy m.channelId = true →
      handleEvent env reg c m =
        (reg, fanout env (OutMsg.newMessage m.data) (channelTest env c m.channelId) reg) ∧
      ∀ r' : Option Int,
        handleEvent env reg c ⟨m.type, m.userId, m.channelId, r', m.data, m.isTyping⟩ =
          handleEvent env reg c m) ∧
    (truthy m.channelId = false → truthy m.recipientId = true →
      handleEvent env reg c m =
        (reg, fanout env (OutMsg.newMessage m.data) (dmTest env c m.recipientId m.data) reg)) ∧
    (m.channelId = some 0 →
      handleEvent env reg c m =
        (reg, if truthy m.recipientId then
          fanout env (OutMsg.newMessage m.data) (dmTest env c m.recipientId m.data) reg
        else [])) ∧
    (truthy m.channelId = false → truthy m.recipientId = false →
      handleEvent env reg c m = (reg, [])) := by
  refine ⟨fun hch => ⟨handleEvent_channel env reg c m hty hch, fun r' => ?_⟩,
    fun hch hr => handleEvent_dm env reg c m hty hch hr,
    fun h0 => ?_, fun hch hr => handleEvent_msg_drop env reg c m hty hch hr⟩
  · rw [handleEvent_channel env reg c m hty hch,
      handleEvent_channel env reg c ⟨m.type, m.userId, m.channelId, r', m.data, m.isTyping⟩
        hty hch]
  · have hch : truthy m.channelId = false := by rw [h0]; decide
    by_cases hr : truthy m.recipientId = true
    · rw [handleEvent_dm env reg c m hty hch hr, if_pos hr]
    · rw [handleEvent_msg_drop env reg c m hty hch (by simpa using hr), if_neg hr]

theorem new_message_routing_truthiness_witness :
    handleEvent envAll regChan 1
      ⟨msgCh5.type, msgCh5.userId, msgCh5.channelId, some 9, msgCh5.data, msgCh5.isTyping⟩ =
      handleEvent envAll regChan 1 msgCh5 :=
  ((new_message_routing_truthiness envAll regChan 1 msgCh5 rfl).1 (by decide)).2 (some 9)

/-- C10 counterexample: the sender's own registry entry CAN affect the
delivery set, refuting "never consults".  For a `new_message` with a truthy
`recipientId` and `message.data` absent, the `forEach` visits the sender's
own entry too, and when that entry's `userId` differs from `recipientId`
the second disjunct evaluates `message.data.authorId`, which throws and
aborts the fan-out.  Concretely: the two registries below agree on every
non-sender entry, yet with the sender's entry present (stored user 9 ≠
recipient 2) nothing is delivered, while without it the recipient's
connection receives the message. -/
theorem fanout_consults_sender_entry_cex :
    ([(0, ⟨some 9, ∅⟩), (1, ⟨some 2, ∅⟩)] : Registry).filter (fun p => p.1 ≠ 0) =
      ([(1, ⟨some 2, ∅⟩)] : Registry).filter (fun p => p.1 ≠ 0) ∧
    (handleEvent envAll [(0, ⟨some 9, ∅⟩), (1, ⟨some 2, ∅⟩)] 0
      ⟨"new_message", none, none, some 2, none, none⟩).2 = [] ∧
    (handleEvent envAll [(1, ⟨some 2, ∅⟩)] 0
      ⟨"new_message", none, none, some 2, none, none⟩).2 =
      [(1, OutMsg.newMessage none)] := by
  decide

/-- C10 amended: the fan-out of `typing` events, of channel `new_message`
events, and of direct `new_message` events whose payload is present never
uses the sending connection's own registry entry to compute the delivery
set: two registries that agree on all entries of connections other than the
sender — one may lack the sender's entry entirely (never authenticated, or
removed), the other may hold anything for it — produce exactly the same
deliveries.  The payload-present hypothesis carves out exactly the case the
counterexample refutes: a DM with `message.data` absent, where evaluating
`message.data.authorId` throws at the sender's own entry. -/
theorem fanout_ignores_sender_entry (env : Env) (c : Nat) (m : InMsg)
    (reg1 reg2 : Registry)
    (hty : m.type = "new_message" ∨ m.type = "typing")
    (hdata : m.type = "new_message" → truthy m.channelId = false →
      truthy m.recipientId = true → m.data ≠ none)
    (hagree : reg1.filter (fun p => p.1 ≠ c) = reg2.filter (fun p => p.1 ≠ c)) :
    (handleEvent env reg1 c m).2 = (handleEvent env reg2 c m).2 := by
  have hchan : ∀ (chId : Option Int) (info : ClientInfo),
      channelTest env c chId c info = .ok false := by
    intro chId info
    simp [channelTest]
  rcases hty with hN | hT
  · by_cases hch : truthy m.channelId = true
    · rw [handleEvent_channel env reg1 c m hN hch, handleEvent_channel env reg2 c m hN hch]
      rw [fanout_skip_sender env _ _ reg1 c (hchan m.channelId),
        fanout_skip_sender env _ _ reg2 c (hchan m.channelId), hagree]
    · have hchf : truthy m.channelId = false := by simpa using hch
      by_cases hr : truthy m.recipientId = true
      · obtain ⟨d, hd⟩ : ∃ d, m.data = some d := by
          cases hmd : m.data with
          | none => exact absurd hmd (hdata hN hchf hr)
          | some d => exact ⟨d, rfl⟩
        have hdm : ∀ info : ClientInfo,
            dmTest env c m.recipientId m.data c info = .ok false := by
          intro info
          rw [hd]
          by_cases hu : info.userId == m.recipientId
          · simp [dmTest, hu]
          · simp [dmTest, hu]
        rw [handleEvent_dm env reg1 c m hN hchf hr, handleEvent_dm env reg2 c m hN hchf hr]
        rw [fanout_skip_sender env _ _ reg1 c hdm, fanout_skip_sender env _ _ reg2 c hdm,
          hagree]
      · rw [handleEvent_msg_drop env reg1 c m hN hchf (by simpa using hr),
          handleEvent_msg_drop env reg2 c m hN hchf (by simpa using hr)]
  · rw [handleEvent_typing env reg1 c m hT, handleEvent_typing env reg2 c m hT]
    rw [fanout_skip_sender env _ _ reg1 c (hchan m.channelId),
      fanout_skip_sender env _ _ reg2 c (hchan m.channelId), hagree]

theorem fanout_ignores_sender_entry_witness :
    (handleEvent envAll [(0, ⟨some 9, {some 5}⟩), (1, ⟨some 1, {some 5}⟩)] 0 msgTyping5).2 =
      (handleEvent envAll [(1, ⟨some 1, {some 5}⟩)] 0 msgTyping5).2 :=
  fanout_ignores_sender_entry envAll 0 msgTyping5
    [(0, ⟨some 9, {some 5}⟩), (1, ⟨some 1, {some 5}⟩)] [(1, ⟨some 1, {some 5}⟩)]
    (Or.inr rfl) (by decide) (by decide)

end Varta
